import Mathlib

/-!
Shallow embedding of the signal-scoring and strategy-derivation engine of the
toss-stock repository (src/analyzer.py, src/indicators.py, src/bitgak.py,
src/strategy.py), with theorems settling the specification claims.

Numbers: the Python code computes on floats; the embedding uses exact
rationals (ℚ).  Python's `round(x, n)` (round-half-to-even) is modelled by
`pyRound` / `roundTo` below.  Pandas `NaN` ("not computed") propagates as
`Option.none`; a comparison against a missing value is `false`, exactly as a
NaN comparison is `False` in Python.
-/

namespace TossStock

/-- Python `round` to an integer: round-half-to-even (banker's rounding). -/
def pyRound (x : ℚ) : ℤ :=
  if x - ⌊x⌋ < 1/2 then ⌊x⌋
  else if 1/2 < x - ⌊x⌋ then ⌊x⌋ + 1
  else if ⌊x⌋ % 2 = 0 then ⌊x⌋ else ⌊x⌋ + 1

/-- Python `round(x, n)`: round to `n` decimal places, half to even. -/
def roundTo (n : ℕ) (x : ℚ) : ℚ := (pyRound (x * 10 ^ n) : ℚ) / 10 ^ n

/-- Source `round(x, 1)`. -/
def round1 : ℚ → ℚ := roundTo 1

/-- Source `round(x, 2)`. -/
def round2 : ℚ → ℚ := roundTo 2

/-! Price bars and candle-pattern detection (src/indicators.py lines 162-220,
duplicated verbatim in src/analyzer.py lines 149-207). -/

/-- One OHLCV trading bar (`PriceBar`).  The date column is carried by the
frame but never read by the scoring logic, so it is omitted here. -/
structure Bar where
  openP : ℚ
  high : ℚ
  low : ℚ
  close : ℚ
  volume : ℚ
deriving DecidableEq, Repr

/-- The fixed candlestick-pattern catalog.  Each constructor corresponds to
one of the strings appended by `detect_candle_patterns`. -/
inductive CandlePattern where
  | doji
  | hammer
  | invertedHammer
  | hangingMan
  | bullishEngulfing
  | bearishEngulfing
  | morningStar
deriving DecidableEq, Repr

/-- Source `detect_candle_patterns(df)` (src/indicators.py lines 162-220).
The bars are in chronological order; `curr`/`prev`/`prev2` are
`df.iloc[-1]`, `df.iloc[-2]`, `df.iloc[-3]`.  The zero-range guard
(`if total_range == 0: return patterns`, line 179-180) precedes the
`body / total_range` division of the doji test (line 183), so the division
is never evaluated with a zero denominator. -/
def detect_candle_patterns (bars : List Bar) : List CandlePattern :=
  if bars.length < 3 then []
  else
    match bars.reverse with
    | curr :: prev :: prev2 :: _ =>
      let openP := curr.openP
      let high := curr.high
      let low := curr.low
      let close := curr.close
      let body := |close - openP|
      let upperShadow := high - max openP close
      let lowerShadow := min openP close - low
      let totalRange := high - low
      if totalRange = 0 then []
      else
        (if body / totalRange < 1/10 then [CandlePattern.doji] else []) ++
        (if lowerShadow > body * 2 ∧ upperShadow < body * (1/2) ∧ close < prev.close then
          [CandlePattern.hammer] else []) ++
        (if upperShadow > body * 2 ∧ lowerShadow < body * (1/2) ∧ close < prev.close then
          [CandlePattern.invertedHammer] else []) ++
        (if lowerShadow > body * 2 ∧ upperShadow < body * (1/2) ∧ close > prev.close then
          [CandlePattern.hangingMan] else []) ++
        (let prevBody := |prev.close - prev.openP|
         if body > prevBody * (3/2) then
           if close > openP ∧ prev.close < prev.openP then [CandlePattern.bullishEngulfing]
           else if close < openP ∧ prev.close > prev.openP then [CandlePattern.bearishEngulfing]
           else []
         else []) ++
        (let day1Body := |prev2.close - prev2.openP|
         let day2Body := |prev.close - prev.openP|
         let day3Body := body
         if prev2.close < prev2.openP ∧ day2Body < day1Body * (3/10) ∧
            close > openP ∧ day3Body > day1Body * (1/2) then
           [CandlePattern.morningStar] else [])
    | _ => []

/-! The Signal Aggregator: src/analyzer.py `analyze_signals` (lines 508-833).
The aggregation logic reads only the latest and the previous row of the
indicator-extended frame (plus the 52-week / support-resistance / momentum
summaries, all reduced to scalars before use), so it is embedded as a function
of an `IndicatorSnapshot`: the record of those scalar readings.  A missing
(NaN) reading is `none`. -/

/-- Final recommendation category. -/
inductive Recommendation where
  | STRONG_BUY
  | BUY
  | HOLD
  | SELL
  | STRONG_SELL
deriving DecidableEq, Repr

/-- Confidence level. -/
inductive Confidence where
  | LOW
  | MEDIUM
  | HIGH
deriving DecidableEq, Repr

/-- One signal string appended to `signals["signals"]`, one constructor per
append site of `analyze_signals`.  The bullish/bearish marker content of each
source string (the emojis scanned at lines 783-784) is recorded by
`isBuyMark` / `isSellMark` below. -/
inductive Sig where
  | volSurge
  | volUp
  | volDown
  | goldenCross
  | deadCross
  | aboveMa20
  | belowMa20
  | ichiGolden
  | ichiDead
  | aboveCloud
  | belowCloud
  | inCloud
  | rsiExtremeOverbought
  | rsiOverbought
  | rsiExtremeOversold
  | rsiOversold
  | rsiStrong
  | rsiWeak
  | rsiNeutral
  | macdGolden
  | macdDead
  | macdHistUp
  | macdHistDown
  | bbUpperHit
  | bbLowerHit
  | nearHigh52w
  | nearLow52w
  | mom1mOverheat
  | mom1mStrongUp
  | mom1mPlunge
  | mom1mDown
  | atrHigh
  | candle (p : CandlePattern)
  | comboBottom
  | comboTop
  | comboTrend
  | comboDecline
  | rsiOverrideNote
deriving DecidableEq, Repr

/-- Whether the source string of a signal contains one of the bullish markers
scanned at line 783 of src/analyzer.py. -/
def isBuyMark : Sig → Bool
  | .goldenCross => true
  | .aboveMa20 => true
  | .ichiGolden => true
  | .aboveCloud => true
  | .rsiExtremeOversold => true
  | .rsiOversold => true
  | .rsiStrong => true
  | .macdGolden => true
  | .macdHistUp => true
  | .bbLowerHit => true
  | .candle .bullishEngulfing => true
  | _ => false

/-- Whether the source string of a signal contains one of the bearish markers
scanned at line 784 of src/analyzer.py. -/
def isSellMark : Sig → Bool
  | .deadCross => true
  | .belowMa20 => true
  | .ichiDead => true
  | .belowCloud => true
  | .rsiExtremeOverbought => true
  | .rsiOverbought => true
  | .rsiWeak => true
  | .macdDead => true
  | .macdHistDown => true
  | .bbUpperHit => true
  | .candle .bearishEngulfing => true
  | .rsiOverrideNote => true
  | _ => false

/-- The scalar indicator readings consumed by `analyze_signals`
(`IndicatorSnapshot`): the latest row's indicator values, the previous row's
values needed for crossover detection, and the scalar summaries computed
inside the function.  `fromHigh52w`/`fromLow52w` are the stored
`signals["from_high_52w"]`/`["from_low_52w"]` percentages (lines 536-537);
`sr` is `(distance_to_support, distance_to_resistance)` when
`calculate_support_resistance` returned a non-empty dict; `momentumRet1m` is
`some r` when the momentum dict is non-empty, with `r` the `return_1m` entry
(`none` inside means the key is absent and `get` defaults to 0, line 718). -/
structure Snapshot where
  close : ℚ
  volumeRatio : Option ℚ
  ma5 : Option ℚ
  ma20 : Option ℚ
  ma60 : Option ℚ
  prevMa5 : Option ℚ
  prevMa20 : Option ℚ
  tenkan : Option ℚ
  kijun : Option ℚ
  prevTenkan : Option ℚ
  prevKijun : Option ℚ
  spanA : Option ℚ
  spanB : Option ℚ
  rsi : Option ℚ
  macd : Option ℚ
  macdSignal : Option ℚ
  prevMacd : Option ℚ
  prevMacdSignal : Option ℚ
  macdHist : Option ℚ
  prevMacdHist : Option ℚ
  bbUpper : Option ℚ
  bbLower : Option ℚ
  fromHigh52w : ℚ
  fromLow52w : ℚ
  sr : Option (ℚ × ℚ)
  momentumRet1m : Option (Option ℚ)
  atrPct : Option ℚ
  candlePatterns : List CandlePattern
deriving DecidableEq, Repr

/-- Comparison `a <= b` where a missing (NaN) operand compares `False`, as a
NaN comparison does in Python. -/
def oleB : Option ℚ → Option ℚ → Bool
  | some a, some b => decide (a ≤ b)
  | _, _ => false

/-- Volume-multiplier stage (src/analyzer.py lines 547-561): the recorded
`Volume_Ratio` indicator value is `round(latest['Volume_Ratio'], 2)` and the
tier comparisons are made on that rounded value. -/
structure VolumeOut where
  multiplier : ℚ
  sigs : List Sig
  surge : Bool
deriving DecidableEq, Repr

def volumeStage (s : Snapshot) : VolumeOut :=
  match s.volumeRatio with
  | none => ⟨1, [], false⟩
  | some v =>
    let vr := round2 v
    if 2 ≤ vr then ⟨13/10, [.volSurge], true⟩
    else if 3/2 ≤ vr then ⟨23/20, [.volUp], false⟩
    else if vr ≤ 1/2 then ⟨7/10, [.volDown], false⟩
    else ⟨1, [], false⟩

/-- Moving-average stage (src/analyzer.py lines 564-588): golden/death cross
at weight `2 * multiplier` (an `elif` pair), and the independent close-vs-MA20
check at flat weight `0.5`. -/
structure MaOut where
  crossDelta : ℚ
  closeDelta : ℚ
  sigs : List Sig
  goldenCross : Bool
  deathCross : Bool
  aboveMa20 : Bool
  belowMa20 : Bool
deriving DecidableEq, Repr

def maStage (s : Snapshot) (m : ℚ) : MaOut :=
  match s.ma5, s.ma20 with
  | some ma5, some ma20 =>
    let golden := oleB s.prevMa5 s.prevMa20 && decide (ma20 < ma5)
    let death := !golden && (oleB s.prevMa20 s.prevMa5 && decide (ma5 < ma20))
    let crossDelta := if golden then 2 * m else if death then -(2 * m) else 0
    let crossSigs : List Sig :=
      if golden then [.goldenCross] else if death then [.deadCross] else []
    if ma20 < s.close then
      ⟨crossDelta, 1/2, crossSigs ++ [.aboveMa20], golden, death, true, false⟩
    else
      ⟨crossDelta, -(1/2), crossSigs ++ [.belowMa20], golden, death, false, true⟩
  | _, _ => ⟨0, 0, [], false, false, false, false⟩

/-- Ichimoku stage (src/analyzer.py lines 591-617): conversion/base-line cross
at weight `1.5 * multiplier`, then cloud position at flat weight `0.5`. -/
structure IchiOut where
  crossDelta : ℚ
  cloudDelta : ℚ
  sigs : List Sig
  aboveCloud : Bool
  belowCloud : Bool
deriving DecidableEq, Repr

def ichiStage (s : Snapshot) (m : ℚ) : IchiOut :=
  match s.tenkan, s.kijun with
  | some tenkan, some kijun =>
    let golden := oleB s.prevTenkan s.prevKijun && decide (kijun < tenkan)
    let death := !golden && (oleB s.prevKijun s.prevTenkan && decide (tenkan < kijun))
    let crossDelta := if golden then 3/2 * m else if death then -(3/2 * m) else 0
    let crossSigs : List Sig :=
      if golden then [.ichiGolden] else if death then [.ichiDead] else []
    match s.spanA, s.spanB with
    | some spanA, some spanB =>
      if max spanA spanB < s.close then
        ⟨crossDelta, 1/2, crossSigs ++ [.aboveCloud], true, false⟩
      else if s.close < min spanA spanB then
        ⟨crossDelta, -(1/2), crossSigs ++ [.belowCloud], false, true⟩
      else
        ⟨crossDelta, 0, crossSigs ++ [.inCloud], false, false⟩
    | _, _ => ⟨crossDelta, 0, crossSigs, false, false⟩
  | _, _ => ⟨0, 0, [], false, false⟩

/-- RSI stage (src/analyzer.py lines 619-648): the tier comparisons are made
on `round(latest['RSI'], 1)`.  The `>= 80` tier sets the SELL override and
adds no score; the tiers are checked in the source's `elif` priority order. -/
structure RsiOut where
  delta : ℚ
  sigs : List Sig
  overrideSell : Bool
  extremeOverbought : Bool
  overbought : Bool
  extremeOversold : Bool
  oversold : Bool
deriving DecidableEq, Repr

def rsiStage (s : Snapshot) : RsiOut :=
  match s.rsi with
  | none => ⟨0, [], false, false, false, false, false⟩
  | some r0 =>
    let r := round1 r0
    if 80 ≤ r then ⟨0, [.rsiExtremeOverbought], true, true, false, false, false⟩
    else if 70 ≤ r then ⟨-2, [.rsiOverbought], false, false, true, false, false⟩
    else if r ≤ 20 then ⟨5, [.rsiExtremeOversold], false, false, false, true, false⟩
    else if r ≤ 30 then ⟨2, [.rsiOversold], false, false, false, false, true⟩
    else if 60 ≤ r then ⟨1/2, [.rsiStrong], false, false, false, false, false⟩
    else if r ≤ 40 then ⟨-(1/2), [.rsiWeak], false, false, false, false, false⟩
    else ⟨0, [.rsiNeutral], false, false, false, false, false⟩

/-- MACD stage (src/analyzer.py lines 651-676): cross at weight
`1.5 * multiplier`, mutually exclusive sign flags from the line value only,
then the histogram-direction note. -/
structure MacdOut where
  crossDelta : ℚ
  sigs : List Sig
  golden : Bool
  death : Bool
  positive : Bool
  negative : Bool
deriving DecidableEq, Repr

def macdStage (s : Snapshot) (m : ℚ) : MacdOut :=
  match s.macd, s.macdSignal with
  | some macd, some macdSig =>
    let golden := oleB s.prevMacd s.prevMacdSignal && decide (macdSig < macd)
    let death := !golden && (oleB s.prevMacdSignal s.prevMacd && decide (macd < macdSig))
    let crossDelta := if golden then 3/2 * m else if death then -(3/2 * m) else 0
    let crossSigs : List Sig :=
      if golden then [.macdGolden] else if death then [.macdDead] else []
    let positive := decide (0 < macd)
    let histSigs : List Sig :=
      match s.macdHist, s.prevMacdHist with
      | some hist, some prevHist =>
        if prevHist < hist then [.macdHistUp] else [.macdHistDown]
      | _, _ => []
    ⟨crossDelta, crossSigs ++ histSigs, golden, death, positive, !positive⟩
  | _, _ => ⟨0, [], false, false, false, false⟩

/-- Bollinger stage (src/analyzer.py lines 679-690). -/
structure BbOut where
  delta : ℚ
  sigs : List Sig
  upper : Bool
  lower : Bool
deriving DecidableEq, Repr

def bbStage (s : Snapshot) : BbOut :=
  match s.bbUpper, s.bbLower with
  | some up, some lo =>
    if up ≤ s.close then ⟨-1, [.bbUpperHit], true, false⟩
    else if s.close ≤ lo then ⟨1, [.bbLowerHit], false, true⟩
    else ⟨0, [], false, false⟩
  | _, _ => ⟨0, [], false, false⟩

/-- 52-week proximity stage (src/analyzer.py lines 693-700), an if/elif pair
over the stored rounded percentages. -/
structure W52Out where
  delta : ℚ
  sigs : List Sig
  nearHigh : Bool
  nearLow : Bool
deriving DecidableEq, Repr

def w52Stage (s : Snapshot) : W52Out :=
  if -5 ≤ s.fromHigh52w then ⟨-1, [.nearHigh52w], true, false⟩
  else if s.fromLow52w ≤ 10 then ⟨1/2, [.nearLow52w], false, true⟩
  else ⟨0, [], false, false⟩

/-- Support/resistance proximity stage (src/analyzer.py lines 703-711): sets
flags only, no score change and no signal text. -/
structure SrOut where
  nearSupport : Bool
  nearResistance : Bool
deriving DecidableEq, Repr

def srStage (s : Snapshot) : SrOut :=
  match s.sr with
  | some (distToSupport, distToResistance) =>
    ⟨decide (-3 ≤ distToSupport), decide (distToResistance ≤ 3)⟩
  | none => ⟨false, false⟩

/-- Momentum stage (src/analyzer.py lines 714-729): runs when the momentum
dict is non-empty; `return_1m` defaults to 0 when absent. -/
structure MomOut where
  delta : ℚ
  sigs : List Sig
deriving DecidableEq, Repr

def momStage (s : Snapshot) : MomOut :=
  match s.momentumRet1m with
  | none => ⟨0, []⟩
  | some ret1m =>
    let r := ret1m.getD 0
    if 20 < r then ⟨-1, [.mom1mOverheat]⟩
    else if 10 < r then ⟨0, [.mom1mStrongUp]⟩
    else if r < -15 then ⟨-2, [.mom1mPlunge]⟩
    else if r < -10 then ⟨-1, [.mom1mDown]⟩
    else ⟨0, []⟩

/-- ATR stage (src/analyzer.py lines 732-736): signal text only, on the
rounded `ATR_pct`; no score change. -/
def atrSigs (s : Snapshot) : List Sig :=
  match s.atrPct with
  | some a => if 5 < round2 a then [.atrHigh] else []
  | none => []

/-- Per-pattern score contribution of the candle stage (lines 743-748): `+1`
when the pattern string contains a bullish word (Hammer, Inverted Hammer,
Bullish Engulfing, Morning Star), `-1` when it contains a bearish word
(Hanging Man, Bearish Engulfing), else 0 (Doji). -/
def candleScore : CandlePattern → ℚ
  | .doji => 0
  | .hammer => 1
  | .invertedHammer => 1
  | .hangingMan => -1
  | .bullishEngulfing => 1
  | .bearishEngulfing => -1
  | .morningStar => 1

/-- Candle-pattern stage (src/analyzer.py lines 739-748). -/
structure CandleOut where
  delta : ℚ
  sigs : List Sig
  bullish : Bool
  bearish : Bool
deriving DecidableEq, Repr

def candleStage (ps : List CandlePattern) : CandleOut :=
  { delta := (ps.map candleScore).sum
    sigs := ps.map Sig.candle
    bullish := ps.any (fun p => candleScore p == 1)
    bearish := ps.any (fun p => candleScore p == -1) }

/-- The named boolean flags accumulated in `signal_flags`; an absent key is
falsy in Python, hence the `false` defaults of the stages. -/
structure Flags where
  volumeSurge : Bool
  goldenCross : Bool
  deathCross : Bool
  aboveMa20 : Bool
  belowMa20 : Bool
  aboveCloud : Bool
  belowCloud : Bool
  rsiExtremeOverbought : Bool
  rsiOverbought : Bool
  rsiExtremeOversold : Bool
  rsiOversold : Bool
  macdGolden : Bool
  macdDeath : Bool
  macdPositive : Bool
  macdNegative : Bool
  bbUpper : Bool
  bbLower : Bool
  nearHigh : Bool
  nearLow : Bool
  nearSupport : Bool
  nearResistance : Bool
  bullishCandle : Bool
  bearishCandle : Bool
deriving DecidableEq, Repr

/-- The flag set produced by the stages of `analyze_signals`. -/
def signalFlags (s : Snapshot) : Flags :=
  let vol := volumeStage s
  let ma := maStage s vol.multiplier
  let ichi := ichiStage s vol.multiplier
  let rsi := rsiStage s
  let macd := macdStage s vol.multiplier
  let bb := bbStage s
  let w52 := w52Stage s
  let sr := srStage s
  let candle := candleStage s.candlePatterns
  { volumeSurge := vol.surge
    goldenCross := ma.goldenCross
    deathCross := ma.deathCross
    aboveMa20 := ma.aboveMa20
    belowMa20 := ma.belowMa20
    aboveCloud := ichi.aboveCloud
    belowCloud := ichi.belowCloud
    rsiExtremeOverbought := rsi.extremeOverbought
    rsiOverbought := rsi.overbought
    rsiExtremeOversold := rsi.extremeOversold
    rsiOversold := rsi.oversold
    macdGolden := macd.golden
    macdDeath := macd.death
    macdPositive := macd.positive
    macdNegative := macd.negative
    bbUpper := bb.upper
    bbLower := bb.lower
    nearHigh := w52.nearHigh
    nearLow := w52.nearLow
    nearSupport := sr.nearSupport
    nearResistance := sr.nearResistance
    bullishCandle := candle.bullish
    bearishCandle := candle.bearish }

/-- Bottom combo condition (src/analyzer.py lines 754-756). -/
def bottomCombo (f : Flags) : Bool := f.rsiOversold && f.nearSupport && f.volumeSurge

/-- Top combo condition (lines 761-762). -/
def topCombo (f : Flags) : Bool := f.rsiOverbought && f.nearResistance

/-- Trend-confirmation combo condition (lines 767-769). -/
def trendCombo (f : Flags) : Bool := f.goldenCross && f.aboveCloud && f.macdPositive

/-- Decline-confirmation combo condition (lines 774-776). -/
def declineCombo (f : Flags) : Bool := f.deathCross && f.belowCloud && f.macdNegative

/-- Combination-bonus stage (src/analyzer.py lines 751-780): the four checks
are independent `if`s, evaluated in the source order. -/
structure ComboOut where
  bonus : ℚ
  sigs : List Sig
deriving DecidableEq, Repr

def comboStage (f : Flags) : ComboOut :=
  { bonus :=
      (if bottomCombo f then 2 else 0) + (if topCombo f then -2 else 0) +
      (if trendCombo f then 3/2 else 0) + (if declineCombo f then -(3/2) else 0)
    sigs :=
      (if bottomCombo f then [Sig.comboBottom] else []) ++
      (if topCombo f then [Sig.comboTop] else []) ++
      (if trendCombo f then [Sig.comboTrend] else []) ++
      (if declineCombo f then [Sig.comboDecline] else []) }

/-- Bullish-tagged signal count (src/analyzer.py line 783). -/
def buyCount (l : List Sig) : ℕ := (l.filter isBuyMark).length

/-- Bearish-tagged signal count (line 784). -/
def sellCount (l : List Sig) : ℕ := (l.filter isSellMark).length

/-- Confidence from the tagged-signal counts (src/analyzer.py lines 790-797). -/
def confidenceOf (buy sell : ℕ) : Confidence :=
  let total := buy + sell
  if 3 ≤ total then
    if (7:ℚ)/10 ≤ (buy : ℚ) / total then .HIGH
    else if (7:ℚ)/10 ≤ (sell : ℚ) / total then .HIGH
    else if (1:ℚ)/2 ≤ (buy : ℚ) / total ∨ (1:ℚ)/2 ≤ (sell : ℚ) / total then .MEDIUM
    else .LOW
  else .LOW

/-- A signal ratio: `part / total if total > 0 else 0` (lines 810-811). -/
def ratioOf (part total : ℕ) : ℚ := if 0 < total then (part : ℚ) / total else 0

/-- The score-and-ratio decision chain of lines 814-828 (reached only when
the RSI override did not fire). -/
def recommendationOf (score buyR sellR : ℚ) : Recommendation :=
  if 4 ≤ score ∨ (2 ≤ score ∧ 4/5 ≤ buyR) then .STRONG_BUY
  else if 3/2 ≤ score ∧ 7/10 ≤ buyR then .BUY
  else if 2 ≤ score then .BUY
  else if score ≤ -4 ∨ (score ≤ -2 ∧ 4/5 ≤ sellR) then .STRONG_SELL
  else if score ≤ -(3/2) ∧ 7/10 ≤ sellR then .SELL
  else if score ≤ -2 then .SELL
  else .HOLD

/-- The final recommendation step (src/analyzer.py lines 804-828): a fired
RSI-80 override forces SELL, otherwise the score/ratio chain decides. -/
def finalRecommendation (overrideSell : Bool) (score buyR sellR : ℚ) : Recommendation :=
  if overrideSell then .SELL else recommendationOf score buyR sellR

/-- The `SignalSet` output of `analyze_signals` restricted to the fields the
claims are about (the indicator echo map and display strings are omitted). -/
structure AnalyzeResult where
  recommendation : Recommendation
  score : ℚ
  comboBonus : ℚ
  buySignals : ℕ
  sellSignals : ℕ
  confidence : Confidence
  signals : List Sig
  flags : Flags
deriving DecidableEq, Repr

/-- Source `analyze_signals` (src/analyzer.py lines 508-833) for a series of
at least 60 bars, as a function of the indicator snapshot.  Score increments
accumulate in the source order; the stored score is `round(score, 1)`
(line 802); the override note of line 807 is appended after the counts of
lines 783-784 are taken. -/
def analyzeSignals (s : Snapshot) : AnalyzeResult :=
  let vol := volumeStage s
  let m := vol.multiplier
  let ma := maStage s m
  let ichi := ichiStage s m
  let rsi := rsiStage s
  let macd := macdStage s m
  let bb := bbStage s
  let w52 := w52Stage s
  let mom := momStage s
  let candle := candleStage s.candlePatterns
  let flags := signalFlags s
  let combo := comboStage flags
  let rawScore :=
    ma.crossDelta + ma.closeDelta + ichi.crossDelta + ichi.cloudDelta + rsi.delta +
    macd.crossDelta + bb.delta + w52.delta + mom.delta + candle.delta + combo.bonus
  let preSigs :=
    vol.sigs ++ ma.sigs ++ ichi.sigs ++ rsi.sigs ++ macd.sigs ++ bb.sigs ++ w52.sigs ++
    mom.sigs ++ atrSigs s ++ candle.sigs ++ combo.sigs
  let buy := buyCount preSigs
  let sell := sellCount preSigs
  let score := round1 rawScore
  { recommendation :=
      finalRecommendation rsi.overrideSell score
        (ratioOf buy (buy + sell)) (ratioOf sell (buy + sell))
    score := score
    comboBonus := combo.bonus
    buySignals := buy
    sellSignals := sell
    confidence := confidenceOf buy sell
    signals := preSigs ++ (if rsi.overrideSell then [Sig.rsiOverrideNote] else [])
    flags := flags }

/-- A concrete snapshot with a golden cross, a volume surge and RSI 85, as in
the spec's override test scenario. -/
def snapOverride : Snapshot :=
  { close := 100, volumeRatio := some (5/2), ma5 := some 99, ma20 := some 98,
    ma60 := none, prevMa5 := some 97, prevMa20 := some 98, tenkan := none,
    kijun := none, prevTenkan := none, prevKijun := none, spanA := none,
    spanB := none, rsi := some 85, macd := none, macdSignal := none,
    prevMacd := none, prevMacdSignal := none, macdHist := none,
    prevMacdHist := none, bbUpper := none, bbLower := none, fromHigh52w := -20,
    fromLow52w := 30, sr := none, momentumRet1m := none, atrPct := none,
    candlePatterns := [] }

/-- The recommendation rule exactly as the claim states it: a pure function
of the rounded composite score and the buy/sell signal ratios. -/
def specRecommendation (score buyR sellR : ℚ) : Recommendation :=
  if 4 ≤ score ∨ (2 ≤ score ∧ 4/5 ≤ buyR) then .STRONG_BUY
  else if 2 ≤ score ∨ (3/2 ≤ score ∧ 7/10 ≤ buyR) then .BUY
  else if score ≤ -4 ∨ (score ≤ -2 ∧ 4/5 ≤ sellR) then .STRONG_SELL
  else if score ≤ -2 ∨ (score ≤ -(3/2) ∧ 7/10 ≤ sellR) then .SELL
  else .HOLD

/-- A concrete snapshot with every indicator missing: no override fires. -/
def snapQuiet : Snapshot :=
  { close := 10, volumeRatio := none, ma5 := none, ma20 := none, ma60 := none,
    prevMa5 := none, prevMa20 := none, tenkan := none, kijun := none,
    prevTenkan := none, prevKijun := none, spanA := none, spanB := none,
    rsi := none, macd := none, macdSignal := none, prevMacd := none,
    prevMacdSignal := none, macdHist := none, prevMacdHist := none,
    bbUpper := none, bbLower := none, fromHigh52w := -20, fromLow52w := 30,
    sr := none, momentumRet1m := none, atrPct := none, candlePatterns := [] }

/-- A concrete snapshot with a death cross, price below the cloud, and a
negative MACD line. -/
def snapDecline : Snapshot :=
  { close := 40, volumeRatio := none, ma5 := some 49, ma20 := some 50,
    ma60 := none, prevMa5 := some 51, prevMa20 := some 50, tenkan := some 45,
    kijun := some 45, prevTenkan := none, prevKijun := none, spanA := some 50,
    spanB := some 60, rsi := some 50, macd := some (-1), macdSignal := some (-1),
    prevMacd := none, prevMacdSignal := none, macdHist := none,
    prevMacdHist := none, bbUpper := none, bbLower := none, fromHigh52w := -20,
    fromLow52w := 30, sr := none, momentumRet1m := none, atrPct := none,
    candlePatterns := [] }

/-! The Crowd-Positioning Module: src/bitgak.py `analyze_bitgak_signal`
(lines 172-258).  The scoring reads four scalar inputs of the latest row:
the crowd-stress index `CSI`, the high-volume-node proximity
`HVN_Proximity`, whether a trend-line touch was detected
(`find_bitgak_lines` + `detect_bitgak_touch`, treated as a boolean input
since the claims only condition on it), and the `RSI` column.  A missing
column or a NaN reading is `none` (the source's `.get` defaults 50 / 100
make the same branches fire as a NaN does, lines 197/210/234). -/
structure BitgakSnapshot where
  csi : Option ℚ
  hvnProximity : Option ℚ
  touched : Bool
  rsi : Option ℚ
deriving DecidableEq, Repr

/-- CSI term of the crowd sub-score (src/bitgak.py lines 196-206): an
if/elif chain over mutually exclusive stress zones. -/
def csiTerm : Option ℚ → ℚ
  | some c =>
    if -5 ≤ c ∧ c ≤ 2 then 1
    else if c < -10 then 1/2
    else if 10 < c then -(1/2)
    else 0
  | none => 0

/-- HVN-proximity term (lines 209-216). -/
def hvnTerm : Option ℚ → ℚ
  | some p => if p < 2 then 1 else if p < 5 then 1/2 else 0
  | none => 0

/-- Trend-line-touch term (lines 219-227). -/
def touchTerm (t : Bool) : ℚ := if t then 1 else 0

/-- RSI-assist term (lines 233-237). -/
def rsiAssistTerm : Option ℚ → ℚ
  | some r => if r < 35 then 1/2 else 0
  | none => 0

/-- The accumulated crowd sub-score before the final `round(score, 1)`. -/
def bitgakRawScore (bs : BitgakSnapshot) : ℚ :=
  csiTerm bs.csi + hvnTerm bs.hvnProximity + touchTerm bs.touched + rsiAssistTerm bs.rsi

/-- The crowd-signal grade labels of lines 240-247. -/
inductive BitgakGrade where
  | STRONG_BITGAK
  | BITGAK
  | NONE
deriving DecidableEq, Repr

/-- Grade from the (unrounded) sub-score (lines 240-247). -/
def bitgakGradeOf (score : ℚ) : BitgakGrade :=
  if 5/2 ≤ score then .STRONG_BITGAK
  else if 3/2 ≤ score then .BITGAK
  else .NONE

/-- The fields of the returned dict that carry the decision content: the
returned `score` is `round(score, 1)` (line 250) and the grade is computed
from the unrounded score. -/
structure BitgakResult where
  score : ℚ
  grade : BitgakGrade
deriving DecidableEq, Repr

def analyze_bitgak_signal (bs : BitgakSnapshot) : BitgakResult :=
  { score := round1 (bitgakRawScore bs)
    grade := bitgakGradeOf (bitgakRawScore bs) }

/-- The crowd sub-score exactly as the claim words it: independent additive
contributions (the stress zones are pairwise disjoint, so the source's
if/elif chain computes the same sum). -/
def specCrowdSubScore (bs : BitgakSnapshot) : ℚ :=
  (match bs.csi with
   | some c =>
     (if -5 ≤ c ∧ c ≤ 2 then (1:ℚ) else 0) + (if c < -10 then 1/2 else 0) +
       (if 10 < c then -(1/2) else 0)
   | none => 0) +
  hvnTerm bs.hvnProximity + touchTerm bs.touched + rsiAssistTerm bs.rsi

/-- Modelled from the spec: the crowd-positioning integration step of the
Signal Aggregator (spec §4.3 step 12).  The crowd-integrated analyzer
version that performs this step is not present under src/ — only its
consumers are (src/strategy.py reads `bitgak`/`bitgak_warning` from the
analysis, src/portfolio.py prints the `bitgak` sub-result) — so this
definition follows the spec's words: classify crowd-stress into the optimal
(−5 % to +2 %) and acceptable (−10 % to +5 %) zones and node-proximity into
near (≤3 %) and ok (≤5 %); optimal ∧ near → flag strong_bitgak, score +3;
else acceptable ∧ proximity ≤ 5 ∧ sub-score ≥ 1 → flag bitgak_signal,
score + sub×1.2; else sub-score ≥ 1 → flag bitgak_weak, score + sub×0.5. -/
inductive CrowdFlag where
  | strongBitgak
  | bitgakSignal
  | bitgakWeak
  | noFlag
deriving DecidableEq, Repr

def bitgakIntegration (csi prox subScore : ℚ) : ℚ × CrowdFlag :=
  if (-5 ≤ csi ∧ csi ≤ 2) ∧ prox ≤ 3 then (3, .strongBitgak)
  else if (-10 ≤ csi ∧ csi ≤ 5) ∧ prox ≤ 5 ∧ 1 ≤ subScore then
    (subScore * (6/5), .bitgakSignal)
  else if 1 ≤ subScore then (subScore * (1/2), .bitgakWeak)
  else (0, .noFlag)

/-- A concrete crowd snapshot: stress 0 (optimal), proximity 1 (near), a
trend-line touch and RSI 30 — sub-score 1 + 1 + 1 + 0.5 = 3.5. -/
def bsStrong : BitgakSnapshot :=
  { csi := some 0, hvnProximity := some 1, touched := true, rsi := some 30 }

/-! C6: the insufficient-data guard of `analyze_signals` (src/analyzer.py
lines 510-511) and the batch loop of `analyze_portfolio` (lines 879-916).
The indicator extraction that feeds the aggregation inside the analyzed
branch involves a rolling standard deviation (Bollinger bands), which is not
rational, so the snapshot extraction is abstracted as a parameter `snapOf`;
nothing settled here depends on it. -/

/-- One portfolio holding as the batch loop consumes it: its symbol and the
fetched price history (`None` when `get_stock_data` failed). -/
structure Holding where
  symbol : String
  df : Option (List Bar)

/-- The per-holding result: `analyze_signals` returns either the explicit
insufficient-data dict `{"symbol": ..., "error": "데이터 부족"}` — which
carries no indicator fields, no score and no recommendation — or a full
analysis. -/
inductive AnalysisOutcome where
  | insufficient (symbol : String)
  | analyzed (result : AnalyzeResult)

/-- Source `analyze_signals(df, symbol)` at the outcome level: the guard
`if df is None or len(df) < 60` returns the insufficient-data result before
any indicator is computed (src/analyzer.py lines 510-511). -/
def analyze_signals_run (snapOf : List Bar → Snapshot) (df : Option (List Bar))
    (symbol : String) : AnalysisOutcome :=
  match df with
  | none => .insufficient symbol
  | some bars =>
    if bars.length < 60 then .insufficient symbol
    else .analyzed (analyzeSignals (snapOf bars))

/-- Source `analyze_portfolio` batch loop (src/analyzer.py lines 879-916):
each holding is analyzed in turn and its result appended; no outcome aborts
the loop. -/
def analyze_portfolio_run (snapOf : List Bar → Snapshot)
    (holdings : List Holding) : List AnalysisOutcome :=
  holdings.foldl (fun acc h => acc ++ [analyze_signals_run snapOf h.df h.symbol]) []

/-! The Strategy Generator: src/strategy.py `generate_trading_strategy`
(lines 9-166).  Display strings are modelled structurally: each emitted
entry/exit/reasoning line becomes a constructor carrying the numeric content
the f-string interpolates. -/
inductive Action where
  | BUY
  | SELL
  | HOLD
deriving DecidableEq, Repr

inductive Sentiment where
  | EXTREME_GREED
  | GREED
  | NEUTRAL
  | FEAR
  | EXTREME_FEAR
deriving DecidableEq, Repr

/-- The `position_size` strings: a percentage or the HOLD branch's literal
"keep current" text. -/
inductive PositionSize where
  | pct (n : ℚ)
  | keepCurrent
deriving DecidableEq, Repr

/-- The crowd-positioning warnings attached upstream (spec §4.3 step 16;
the producer is the crowd-integrated analyzer, absent from src/).  The
consumer code of src/strategy.py lines 154-164 tests for the chasing-buyer
and far-from-value substrings, which is captured by `warningReduces`. -/
inductive CrowdWarning where
  | chasing
  | capitulation
  | farFromValue
  | generic
deriving DecidableEq, Repr

/-- Whether the warning text contains one of the two substrings tested at
src/strategy.py line 158. -/
def warningReduces : CrowdWarning → Bool
  | .chasing => true
  | .farFromValue => true
  | _ => false

inductive EntryStep where
  | tranche (price portion : ℚ)
  | bitgakExtra (hvnPrice : ℚ)
  | bitgakWait (hvnPrice : ℚ)
  | csiCheck (csi : Option ℚ)
  | supportWatch (support : ℚ)
  | rsiOversoldWatch
deriving DecidableEq, Repr

inductive ExitStep where
  | immediateHalf (price : ℚ)
  | bounceRest (price : ℚ)
  | resistFailWatch (resistance : ℚ)
  | rsiVolumeWatch
deriving DecidableEq, Repr

structure StopLoss where
  price : ℚ
  percentage : ℚ
deriving DecidableEq, Repr

structure TakeProfit where
  price : ℚ
  percentage : ℚ
  sellRatio : ℚ
deriving DecidableEq, Repr

inductive Reason where
  | strongBuyPlan
  | cautiousBuyPlan
  | bitgakEntry (grade : BitgakGrade)
  | sellPlan
  | crashNote
  | holdPlan
  | bitgakWaitNote
  | extremeFearNote
  | extremeGreedNote
  | crowdWarning (w : CrowdWarning)
  | reducedNote
deriving DecidableEq, Repr

structure TradeStrategy where
  action : Action
  confidence : Confidence
  entrySteps : List EntryStep
  exitSteps : List ExitStep
  stopLoss : Option StopLoss
  takeProfit : List TakeProfit
  positionSize : PositionSize
  reasoning : List Reason
deriving DecidableEq, Repr

/-- The fields of the analysis dict that `generate_trading_strategy` reads
(src/strategy.py lines 22-28, 154): every `.get` default of the source is
applied at the use site below. -/
structure AnalysisIn where
  currentPrice : ℚ
  recommendation : Recommendation
  targetPrice : Option ℚ
  support : Option ℚ
  resistance : Option ℚ
  return1m : Option ℚ
  score : ℚ
  bitgakGrade : BitgakGrade
  bitgakHvnPrice : Option ℚ
  bitgakCsi : Option ℚ
  bitgakWarning : Option CrowdWarning
deriving DecidableEq, Repr

structure MarketIn where
  vix : ℚ
  sentiment : Sentiment
deriving DecidableEq, Repr

/-- The initial strategy dict of src/strategy.py lines 11-20. -/
def strategyInit : TradeStrategy :=
  { action := .HOLD, confidence := .MEDIUM, entrySteps := [], exitSteps := [],
    stopLoss := none, takeProfit := [], positionSize := .pct 0, reasoning := [] }

/-- BUY / STRONG_BUY branch (src/strategy.py lines 52-99): score-tiered
entry plan, optional extra crowd tranche, stop-loss at 0.97 × support, and
the target-price-or-resistance take-profit ladder.  `upside` follows the
source's Python truthiness: a missing or zero target price yields `None`. -/
def buyBranch (a : AnalysisIn) : TradeStrategy :=
  let p := a.currentPrice
  let support := a.support.getD (p * (9/10))
  let resistance := a.resistance.getD (p * (11/10))
  let st1 :=
    if 5 ≤ a.score then
      { strategyInit with
        action := Action.BUY, confidence := .HIGH,
        positionSize := .pct 30,
        entrySteps := [.tranche p 50, .tranche (p * (97/100)) 30,
          .tranche (p * (95/100)) 20],
        reasoning := [.strongBuyPlan] }
    else
      { strategyInit with
        action := Action.BUY, confidence := .MEDIUM,
        positionSize := .pct 20,
        entrySteps := [.tranche p 40, .tranche (p * (95/100)) 30,
          .tranche (p * (9/10)) 30],
        reasoning := [.cautiousBuyPlan] }
  let st2 :=
    if a.bitgakGrade = .STRONG_BITGAK ∨ a.bitgakGrade = .BITGAK then
      { st1 with
        entrySteps := st1.entrySteps ++
          [.bitgakExtra (a.bitgakHvnPrice.getD (p * (95/100)))],
        reasoning := st1.reasoning ++ [.bitgakEntry a.bitgakGrade] }
    else st1
  let st3 :=
    { st2 with
      stopLoss := some
        ⟨round2 (support * (97/100)), round1 ((support * (97/100) / p - 1) * 100)⟩ }
  let twoTier : List TakeProfit :=
    [⟨round2 resistance, round1 ((resistance / p - 1) * 100), 50⟩,
     ⟨round2 (resistance * (21/20)), round1 ((resistance * (21/20) / p - 1) * 100), 50⟩]
  { st3 with takeProfit :=
      match a.targetPrice with
      | some t =>
        if t ≠ 0 ∧ 10 < (t / p - 1) * 100 then
          [⟨round2 (p * (11/10)), 10, 30⟩, ⟨round2 (p * (12/10)), 20, 30⟩,
           ⟨round2 t, round1 ((t / p - 1) * 100), 40⟩]
        else twoTier
      | none => twoTier }

/-- SELL / STRONG_SELL branch (src/strategy.py lines 101-115). -/
def sellBranch (a : AnalysisIn) : TradeStrategy :=
  let p := a.currentPrice
  { strategyInit with
    action := Action.SELL,
    confidence := if a.score ≤ -5 then .HIGH else .MEDIUM,
    positionSize := .pct 0,
    exitSteps := [.immediateHalf p, .bounceRest (p * (103/100))],
    reasoning := [.sellPlan] ++
      (if a.return1m.getD 0 < -15 then [.crashNote] else []) }

/-- HOLD branch (src/strategy.py lines 117-142). -/
def holdBranch (a : AnalysisIn) : TradeStrategy :=
  let p := a.currentPrice
  let support := a.support.getD (p * (9/10))
  let resistance := a.resistance.getD (p * (11/10))
  let stH := { strategyInit with
    action := Action.HOLD, confidence := .MEDIUM,
    positionSize := .keepCurrent, reasoning := [.holdPlan] }
  if a.bitgakGrade ≠ .NONE then
    { stH with
      entrySteps := [.bitgakWait (a.bitgakHvnPrice.getD (p * (95/100))),
        .csiCheck a.bitgakCsi],
      reasoning := stH.reasoning ++ [.bitgakWaitNote] }
  else
    { stH with
      entrySteps := [.supportWatch support, .rsiOversoldWatch],
      exitSteps := [.resistFailWatch resistance, .rsiVolumeWatch] }

/-- The recommendation dispatch of lines 52, 102, 118. -/
def mainBranch (a : AnalysisIn) : TradeStrategy :=
  if a.recommendation = .STRONG_BUY ∨ a.recommendation = .BUY then buyBranch a
  else if a.recommendation = .STRONG_SELL ∨ a.recommendation = .SELL then sellBranch a
  else holdBranch a

/-- Macro-sentiment overlay (src/strategy.py lines 144-151). -/
def macroOverlay (mkt : MarketIn) (st : TradeStrategy) : TradeStrategy :=
  if mkt.sentiment = .EXTREME_FEAR ∧ st.action = .BUY then
    { st with reasoning := st.reasoning ++ [.extremeFearNote], confidence := .HIGH }
  else if mkt.sentiment = .EXTREME_GREED ∧ st.action = .BUY then
    { st with
      reasoning := st.reasoning ++ [.extremeGreedNote],
      confidence := .LOW, positionSize := .pct 10 }
  else st

/-- Crowd-warning overlay (src/strategy.py lines 153-164). -/
def warningOverlay (wo : Option CrowdWarning) (st : TradeStrategy) : TradeStrategy :=
  match wo with
  | some w =>
    if st.action = .BUY then
      let st6 := { st with reasoning := st.reasoning ++ [.crowdWarning w] }
      if warningReduces w then
        { st6 with
          confidence := .LOW,
          positionSize :=
            if st6.positionSize = .pct 30 then .pct 15
            else if st6.positionSize = .pct 20 then .pct 10
            else st6.positionSize,
          reasoning := st6.reasoning ++ [.reducedNote] }
      else st6
    else st
  | none => st

/-- Source `generate_trading_strategy(analysis, market_indicators)`
(src/strategy.py lines 9-166): the zero-price guard, the recommendation
branch, then the macro and crowd-warning overlays in source order. -/
def generate_trading_strategy (a : AnalysisIn) (mkt : MarketIn) : TradeStrategy :=
  if a.currentPrice = 0 then strategyInit
  else warningOverlay a.bitgakWarning (macroOverlay mkt (mainBranch a))

/-- A BUY analysis with strong score and an EXTREME_GREED market. -/
def aGreedy : AnalysisIn :=
  { currentPrice := 100, recommendation := .STRONG_BUY, targetPrice := none,
    support := none, resistance := none, return1m := none, score := 5,
    bitgakGrade := .NONE, bitgakHvnPrice := none, bitgakCsi := none,
    bitgakWarning := none }

def mGreedy : MarketIn := { vix := 12, sentiment := .EXTREME_GREED }

/-- A BUY analysis like `aGreedy` but under a neutral market. -/
def mNeutral : MarketIn := { vix := 22, sentiment := .NEUTRAL }

/-! C8: the frame effect of `analyze_signals` on its DataFrame argument.
The indicator helpers of src/analyzer.py (`calculate_ma` line 438-442,
`calculate_ichimoku`, `calculate_rsi`, `calculate_macd`,
`calculate_bollinger`, `calculate_volume_analysis`, `calculate_atr`) assign
new columns to the caller's DataFrame object in place (`df['MA5'] = ...`),
and `analyze_signals` (lines 513-520) calls them on its input.  The state of
that object is modelled as its OHLCV rows plus the list of derived column
names; a pandas column assignment adds the name when absent and overwrites
the values when present (the values are pure functions of the rows, so the
name list together with the rows determines the frame). -/
structure Frame where
  bars : List Bar
  extraCols : List String
deriving DecidableEq, Repr

/-- One pandas column assignment `df[c] = ...` at the frame level. -/
def addCol (df : Frame) (c : String) : Frame :=
  if c ∈ df.extraCols then df else { df with extraCols := df.extraCols ++ [c] }

def addCols (df : Frame) (cs : List String) : Frame := cs.foldl addCol df

/-- `calculate_ma(df)` (src/analyzer.py lines 438-442). -/
def calculate_ma_frame (df : Frame) : Frame := addCols df ["MA5", "MA20", "MA60"]

/-- `calculate_ichimoku(df)` (lines 445-468). -/
def calculate_ichimoku_frame (df : Frame) : Frame :=
  addCols df ["Tenkan", "Kijun", "SpanA", "SpanB", "Chikou"]

/-- `calculate_rsi(df)` (lines 471-478). -/
def calculate_rsi_frame (df : Frame) : Frame := addCols df ["RSI"]

/-- `calculate_macd(df)` (lines 481-488). -/
def calculate_macd_frame (df : Frame) : Frame :=
  addCols df ["EMA12", "EMA26", "MACD", "MACD_Signal", "MACD_Hist"]

/-- `calculate_bollinger(df)` (lines 491-498). -/
def calculate_bollinger_frame (df : Frame) : Frame :=
  addCols df ["BB_Middle", "BB_Upper", "BB_Lower", "BB_Width"]

/-- `calculate_volume_analysis(df)` (lines 501-505). -/
def calculate_volume_frame (df : Frame) : Frame :=
  addCols df ["Volume_MA20", "Volume_Ratio"]

/-- `calculate_atr(df)` (lines 132-146). -/
def calculate_atr_frame (df : Frame) : Frame := addCols df ["ATR", "ATR_pct"]

/-- The frame effect of `analyze_signals(df, ...)` (lines 510-520): below 60
bars the function returns before touching the frame; otherwise the seven
indicator helpers run on the caller's object in source order. -/
def analyze_signals_frame (df : Frame) : Frame :=
  if df.bars.length < 60 then df
  else
    calculate_atr_frame (calculate_volume_frame (calculate_bollinger_frame
      (calculate_macd_frame (calculate_rsi_frame (calculate_ichimoku_frame
        (calculate_ma_frame df))))))

/-- A 60-bar frame with no derived columns, as `get_stock_data` returns. -/
def frame60 : Frame :=
  { bars := List.replicate 60 ⟨1, 2, 1, 2, 3⟩, extraCols := [] }

theorem floor_le_pyRound (x : ℚ) : ⌊x⌋ ≤ pyRound x := by
  unfold pyRound
  split_ifs <;> omega

theorem pyRound_le_floor_add_one (x : ℚ) : pyRound x ≤ ⌊x⌋ + 1 := by
  unfold pyRound
  split_ifs <;> omega

theorem le_pyRound_of_le {n : ℤ} {x : ℚ} (h : (n : ℚ) ≤ x) : n ≤ pyRound x :=
  le_trans (Int.le_floor.mpr h) (floor_le_pyRound x)

theorem pyRound_intCast (n : ℤ) : pyRound (n : ℚ) = n := by
  unfold pyRound
  rw [Int.floor_intCast]
  norm_num

theorem pyRound_le_of_le {n : ℤ} {x : ℚ} (h : x ≤ (n : ℚ)) : pyRound x ≤ n := by
  rcases eq_or_lt_of_le h with heq | hlt
  · rw [heq, pyRound_intCast]
  · have hf : ⌊x⌋ < n := Int.floor_lt.mpr hlt
    exact le_trans (pyRound_le_floor_add_one x) (by omega)

/-- An integer lower bound survives rounding to one decimal place. -/
theorem le_round1_of_le {n : ℤ} {x : ℚ} (h : (n : ℚ) ≤ x) : (n : ℚ) ≤ round1 x := by
  unfold round1 roundTo
  rw [le_div_iff₀ (by norm_num : (0:ℚ) < (10:ℚ) ^ (1:ℕ))]
  have h10 : ((10 * n : ℤ) : ℚ) ≤ x * 10 ^ 1 := by push_cast; linarith
  have hp : (10 * n : ℤ) ≤ pyRound (x * 10 ^ 1) := le_pyRound_of_le h10
  calc (n : ℚ) * 10 ^ 1 = ((10 * n : ℤ) : ℚ) := by push_cast; ring
    _ ≤ (pyRound (x * 10 ^ 1) : ℚ) := by exact_mod_cast hp

/-- C9: every series of at least three bars whose latest bar has zero total
range (high = low) yields the empty pattern list; the body-to-range division
is structurally guarded behind the zero-range test, and the detector is a
total function, so no error escapes.  A series of at least three bars is
written `pre ++ [p2, p1, b]` with `b` the latest bar. -/
theorem zero_range_candle_detection_empty
    (pre : List Bar) (p2 p1 b : Bar) (h : b.high = b.low) :
    detect_candle_patterns (pre ++ [p2, p1, b]) = [] := by
  unfold detect_candle_patterns
  rw [if_neg (by simp)]
  rw [List.reverse_append]
  simp only [List.reverse_cons, List.reverse_nil, List.nil_append, List.cons_append,
    List.append_assoc]
  rw [if_pos (by rw [h]; ring)]

/-- Witness for C9 at a concrete three-bar series whose latest bar is flat. -/
theorem zero_range_candle_detection_empty_witness :
    ({ openP := 5, high := 5, low := 5, close := 5, volume := 0 } : Bar).high =
      ({ openP := 5, high := 5, low := 5, close := 5, volume := 0 } : Bar).low ∧
    detect_candle_patterns
      [ { openP := 1, high := 2, low := 1, close := 2, volume := 3 },
        { openP := 2, high := 3, low := 1, close := 1, volume := 4 },
        { openP := 5, high := 5, low := 5, close := 5, volume := 0 } ] = [] :=
  ⟨rfl, zero_range_candle_detection_empty []
    { openP := 1, high := 2, low := 1, close := 2, volume := 3 }
    { openP := 2, high := 3, low := 1, close := 1, volume := 4 }
    { openP := 5, high := 5, low := 5, close := 5, volume := 0 } rfl⟩

theorem analyzeSignals_recommendation_def (s : Snapshot) :
    (analyzeSignals s).recommendation =
      finalRecommendation (rsiStage s).overrideSell (analyzeSignals s).score
        (ratioOf (analyzeSignals s).buySignals
          ((analyzeSignals s).buySignals + (analyzeSignals s).sellSignals))
        (ratioOf (analyzeSignals s).sellSignals
          ((analyzeSignals s).buySignals + (analyzeSignals s).sellSignals)) := rfl

/-- C1: whenever the latest RSI is computed and is at least 80, the final
recommendation is SELL — whatever the composite score, the other flags and
the signal ratios are — and the RSI branch contributes no score change
(`(rsiStage s).delta = 0`).  The tier comparison is made on the recorded
`round(RSI, 1)` value, and an integer lower bound survives that rounding. -/
theorem rsi_override_forces_sell (s : Snapshot) (r : ℚ)
    (hr : s.rsi = some r) (h80 : (80:ℚ) ≤ r) :
    (analyzeSignals s).recommendation = Recommendation.SELL ∧ (rsiStage s).delta = 0 := by
  have h80r : (80:ℚ) ≤ round1 r := by
    have h := le_round1_of_le (n := 80) (x := r) (by exact_mod_cast h80)
    exact_mod_cast h
  have hfire : rsiStage s = ⟨0, [.rsiExtremeOverbought], true, true, false, false, false⟩ := by
    simp only [rsiStage, hr]
    rw [if_pos h80r]
  refine ⟨?_, by rw [hfire]⟩
  rw [analyzeSignals_recommendation_def, hfire]
  rfl

/-- Witness for C1: the override snapshot has RSI 85 (≥ 80) and the
aggregator answers SELL with a zero RSI score delta. -/
theorem rsi_override_forces_sell_witness :
    snapOverride.rsi = some 85 ∧ (80:ℚ) ≤ 85 ∧
    ((analyzeSignals snapOverride).recommendation = Recommendation.SELL ∧
     (rsiStage snapOverride).delta = 0) :=
  ⟨rfl, by norm_num, rsi_override_forces_sell snapOverride 85 rfl (by norm_num)⟩

theorem recommendationOf_eq_specRecommendation (score buyR sellR : ℚ) :
    recommendationOf score buyR sellR = specRecommendation score buyR sellR := by
  unfold recommendationOf specRecommendation
  by_cases h1 : 4 ≤ score ∨ (2 ≤ score ∧ 4/5 ≤ buyR)
  · rw [if_pos h1, if_pos h1]
  rw [if_neg h1, if_neg h1]
  by_cases h2 : 3/2 ≤ score ∧ 7/10 ≤ buyR
  · rw [if_pos h2, if_pos (Or.inr h2)]
  rw [if_neg h2]
  by_cases h3 : 2 ≤ score
  · rw [if_pos h3, if_pos (Or.inl h3)]
  rw [if_neg h3, if_neg (show ¬(2 ≤ score ∨ 3/2 ≤ score ∧ 7/10 ≤ buyR) by
    rintro (h | h); exact h3 h; exact h2 h)]
  by_cases h4 : score ≤ -4 ∨ (score ≤ -2 ∧ 4/5 ≤ sellR)
  · rw [if_pos h4, if_pos h4]
  rw [if_neg h4, if_neg h4]
  by_cases h5 : score ≤ -(3/2) ∧ 7/10 ≤ sellR
  · rw [if_pos h5, if_pos (Or.inr h5)]
  rw [if_neg h5]
  by_cases h6 : score ≤ -2
  · rw [if_pos h6, if_pos (Or.inl h6)]
  rw [if_neg h6, if_neg (show ¬(score ≤ -2 ∨ score ≤ -(3/2) ∧ 7/10 ≤ sellR) by
    rintro (h | h); exact h6 h; exact h5 h)]

/-- C2: when the RSI-80 override did not fire, the final recommendation is
the claim's pure function of the rounded score and the buy/sell ratios; in
particular score 4.0 with buy ratio 0.5 is STRONG_BUY, and score 3.9 with
buy ratio < 0.8 is not. -/
theorem recommendation_pure_in_score_and_ratios (s : Snapshot)
    (hno : (rsiStage s).overrideSell = false) :
    ((analyzeSignals s).recommendation =
      specRecommendation (analyzeSignals s).score
        (ratioOf (analyzeSignals s).buySignals
          ((analyzeSignals s).buySignals + (analyzeSignals s).sellSignals))
        (ratioOf (analyzeSignals s).sellSignals
          ((analyzeSignals s).buySignals + (analyzeSignals s).sellSignals))) ∧
    (∀ sellR : ℚ, specRecommendation 4 (1/2) sellR = Recommendation.STRONG_BUY) ∧
    (∀ buyR sellR : ℚ, buyR < 4/5 →
      specRecommendation (39/10) buyR sellR ≠ Recommendation.STRONG_BUY) := by
  refine ⟨?_, ?_, ?_⟩
  · rw [analyzeSignals_recommendation_def, hno]
    simp only [finalRecommendation, Bool.false_eq_true, if_false]
    exact recommendationOf_eq_specRecommendation _ _ _
  · intro sellR
    unfold specRecommendation
    rw [if_pos (Or.inl (by norm_num))]
  · intro buyR sellR hbr
    unfold specRecommendation
    rw [if_neg (by push_neg; exact ⟨by norm_num, fun _ => hbr⟩)]
    rw [if_pos (Or.inl (by norm_num))]
    decide

/-- Witness for C2 at a snapshot on which the override does not fire. -/
theorem recommendation_pure_in_score_and_ratios_witness :
    (rsiStage snapQuiet).overrideSell = false ∧
    (analyzeSignals snapQuiet).recommendation =
      specRecommendation (analyzeSignals snapQuiet).score
        (ratioOf (analyzeSignals snapQuiet).buySignals
          ((analyzeSignals snapQuiet).buySignals + (analyzeSignals snapQuiet).sellSignals))
        (ratioOf (analyzeSignals snapQuiet).sellSignals
          ((analyzeSignals snapQuiet).buySignals + (analyzeSignals snapQuiet).sellSignals)) :=
  ⟨rfl, (recommendation_pure_in_score_and_ratios snapQuiet rfl).1⟩

/-- C3: the volume multiplier computed from the recorded `Volume_Ratio`
indicator value (the source rounds it to 2 decimals before the tier
comparisons, line 549) is 1.3 / 1.15 / 0.7 / 1.0 by tier, with the
`volume_surge` flag exactly in the 1.3 tier; the multiplier is a scaling
factor of precisely the three crossover increments (baseline `m = 1` gives
±2, ±1.5, ±1.5), while the flat increments — the ±0.5 close-versus-MA20
adjustment and the ±0.5 cloud adjustment — never see it. -/
theorem volume_multiplier_scaling (s : Snapshot) (v : ℚ)
    (hv : s.volumeRatio = some v) :
    ((2 ≤ round2 v →
        (volumeStage s).multiplier = 13/10 ∧ (volumeStage s).surge = true) ∧
     (3/2 ≤ round2 v → round2 v < 2 →
        (volumeStage s).multiplier = 23/20 ∧ (volumeStage s).surge = false) ∧
     (round2 v ≤ 1/2 →
        (volumeStage s).multiplier = 7/10 ∧ (volumeStage s).surge = false) ∧
     (1/2 < round2 v → round2 v < 3/2 →
        (volumeStage s).multiplier = 1 ∧ (volumeStage s).surge = false)) ∧
    (∀ m : ℚ,
      (maStage s m).crossDelta = m * (maStage s 1).crossDelta ∧
      (ichiStage s m).crossDelta = m * (ichiStage s 1).crossDelta ∧
      (macdStage s m).crossDelta = m * (macdStage s 1).crossDelta ∧
      (maStage s m).closeDelta = (maStage s 1).closeDelta ∧
      (ichiStage s m).cloudDelta = (ichiStage s 1).cloudDelta) ∧
    ((maStage s 1).crossDelta = 2 ∨ (maStage s 1).crossDelta = -2 ∨
      (maStage s 1).crossDelta = 0) ∧
    ((ichiStage s 1).crossDelta = 3/2 ∨ (ichiStage s 1).crossDelta = -(3/2) ∨
      (ichiStage s 1).crossDelta = 0) ∧
    ((macdStage s 1).crossDelta = 3/2 ∨ (macdStage s 1).crossDelta = -(3/2) ∨
      (macdStage s 1).crossDelta = 0) ∧
    ((maStage s 1).closeDelta = 1/2 ∨ (maStage s 1).closeDelta = -(1/2) ∨
      (maStage s 1).closeDelta = 0) := by
  refine ⟨⟨?_, ?_, ?_, ?_⟩, ?_, ?_, ?_, ?_, ?_⟩
  · intro h2
    simp only [volumeStage, hv]
    rw [if_pos h2]
    exact ⟨rfl, rfl⟩
  · intro h15 hlt
    simp only [volumeStage, hv]
    rw [if_neg (by linarith), if_pos h15]
    exact ⟨rfl, rfl⟩
  · intro h05
    simp only [volumeStage, hv]
    rw [if_neg (by linarith), if_neg (by linarith), if_pos h05]
    exact ⟨rfl, rfl⟩
  · intro hgt hlt
    simp only [volumeStage, hv]
    rw [if_neg (by linarith), if_neg (by linarith), if_neg (by linarith)]
    exact ⟨rfl, rfl⟩
  · intro m
    refine ⟨?_, ?_, ?_, ?_, ?_⟩
    · rcases h5 : s.ma5 with _ | a <;> rcases h20 : s.ma20 with _ | b <;>
        simp only [maStage, h5, h20, apply_ite MaOut.crossDelta] <;>
        first | (split_ifs <;> ring) | ring
    · rcases ht : s.tenkan with _ | a <;> rcases hk : s.kijun with _ | b <;>
        rcases hA : s.spanA with _ | c <;> rcases hB : s.spanB with _ | d <;>
        simp only [ichiStage, ht, hk, hA, hB, apply_ite IchiOut.crossDelta] <;>
        first | (split_ifs <;> ring) | ring
    · rcases hm : s.macd with _ | a <;> rcases hs : s.macdSignal with _ | b <;>
        simp only [macdStage, hm, hs] <;>
        first | (split_ifs <;> ring) | ring
    · rcases h5 : s.ma5 with _ | a <;> rcases h20 : s.ma20 with _ | b <;>
        simp only [maStage, h5, h20, apply_ite MaOut.closeDelta]
    · rcases ht : s.tenkan with _ | a <;> rcases hk : s.kijun with _ | b <;>
        rcases hA : s.spanA with _ | c <;> rcases hB : s.spanB with _ | d <;>
        simp only [ichiStage, ht, hk, hA, hB, apply_ite IchiOut.cloudDelta]
  · rcases h5 : s.ma5 with _ | a <;> rcases h20 : s.ma20 with _ | b <;>
      simp only [maStage, h5, h20, apply_ite MaOut.crossDelta] <;>
      first | (split_ifs <;> norm_num) | norm_num
  · rcases ht : s.tenkan with _ | a <;> rcases hk : s.kijun with _ | b <;>
      rcases hA : s.spanA with _ | c <;> rcases hB : s.spanB with _ | d <;>
      simp only [ichiStage, ht, hk, hA, hB, apply_ite IchiOut.crossDelta] <;>
      first | (split_ifs <;> norm_num) | norm_num
  · rcases hm : s.macd with _ | a <;> rcases hs : s.macdSignal with _ | b <;>
      simp only [macdStage, hm, hs] <;>
      first | (split_ifs <;> norm_num) | norm_num
  · rcases h5 : s.ma5 with _ | a <;> rcases h20 : s.ma20 with _ | b <;>
      simp only [maStage, h5, h20, apply_ite MaOut.closeDelta] <;>
      first | (split_ifs <;> norm_num) | norm_num

/-- Witness for C3: the override snapshot has Volume_Ratio 2.5, so the 1.3
tier with the volume_surge flag applies. -/
theorem volume_multiplier_scaling_witness :
    snapOverride.volumeRatio = some (5/2) ∧
    ((2:ℚ) ≤ round2 (5/2) →
      (volumeStage snapOverride).multiplier = 13/10 ∧
      (volumeStage snapOverride).surge = true) :=
  ⟨rfl, (volume_multiplier_scaling snapOverride (5/2) rfl).1.1⟩

/-- C10: whenever the flags death_cross, below_cloud and macd_negative are
all set, the decline-confirmation signal is appended and the combination
bonus carries an extra -1.5 beyond the three spec-listed combos
(src/analyzer.py lines 773-780). -/
theorem decline_combo_bonus (s : Snapshot)
    (h1 : (analyzeSignals s).flags.deathCross = true)
    (h2 : (analyzeSignals s).flags.belowCloud = true)
    (h3 : (analyzeSignals s).flags.macdNegative = true) :
    Sig.comboDecline ∈ (analyzeSignals s).signals ∧
    (analyzeSignals s).comboBonus =
      (if bottomCombo (analyzeSignals s).flags then 2 else 0) +
      (if topCombo (analyzeSignals s).flags then -2 else 0) +
      (if trendCombo (analyzeSignals s).flags then (3:ℚ)/2 else 0) + -(3/2) := by
  have e : (analyzeSignals s).flags = signalFlags s := rfl
  rw [e] at h1 h2 h3 ⊢
  have hd : declineCombo (signalFlags s) = true := by
    simp [declineCombo, h1, h2, h3]
  constructor
  · have hmem : Sig.comboDecline ∈ (comboStage (signalFlags s)).sigs := by
      simp [comboStage, hd]
    have esig : (analyzeSignals s).signals =
        ((volumeStage s).sigs ++ (maStage s (volumeStage s).multiplier).sigs ++
          (ichiStage s (volumeStage s).multiplier).sigs ++ (rsiStage s).sigs ++
          (macdStage s (volumeStage s).multiplier).sigs ++ (bbStage s).sigs ++
          (w52Stage s).sigs ++ (momStage s).sigs ++ atrSigs s ++
          (candleStage s.candlePatterns).sigs ++ (comboStage (signalFlags s)).sigs) ++
        (if (rsiStage s).overrideSell then [Sig.rsiOverrideNote] else []) := rfl
    rw [esig]
    simp only [List.mem_append]
    tauto
  · have eb : (analyzeSignals s).comboBonus = (comboStage (signalFlags s)).bonus := rfl
    rw [eb]
    simp [comboStage, hd]

/-- Witness for C10: the decline snapshot sets all three flags, appends the
decline-combo signal and gets the -1.5 bonus. -/
theorem decline_combo_bonus_witness :
    (analyzeSignals snapDecline).flags.deathCross = true ∧
    (analyzeSignals snapDecline).flags.belowCloud = true ∧
    (analyzeSignals snapDecline).flags.macdNegative = true ∧
    (Sig.comboDecline ∈ (analyzeSignals snapDecline).signals ∧
      (analyzeSignals snapDecline).comboBonus =
        (if bottomCombo (analyzeSignals snapDecline).flags then 2 else 0) +
        (if topCombo (analyzeSignals snapDecline).flags then -2 else 0) +
        (if trendCombo (analyzeSignals snapDecline).flags then (3:ℚ)/2 else 0) +
        -(3/2)) :=
  ⟨by decide, by decide, by decide,
    decline_combo_bonus snapDecline (by decide) (by decide) (by decide)⟩

theorem round1_half (k : ℤ) : round1 ((k : ℚ)/2) = (k : ℚ)/2 := by
  unfold round1 roundTo
  have h : ((k : ℚ)/2) * 10 ^ 1 = ((5 * k : ℤ) : ℚ) := by push_cast; ring
  rw [h, pyRound_intCast]
  push_cast
  ring

theorem csiTerm_half (c : Option ℚ) : ∃ k : ℤ, csiTerm c = (k : ℚ)/2 := by
  rcases c with _ | c
  · exact ⟨0, by norm_num [csiTerm]⟩
  · simp only [csiTerm]
    split_ifs
    · exact ⟨2, by norm_num⟩
    · exact ⟨1, by norm_num⟩
    · exact ⟨-1, by norm_num⟩
    · exact ⟨0, by norm_num⟩

theorem hvnTerm_half (p : Option ℚ) : ∃ k : ℤ, hvnTerm p = (k : ℚ)/2 := by
  rcases p with _ | p
  · exact ⟨0, by norm_num [hvnTerm]⟩
  · simp only [hvnTerm]
    split_ifs
    · exact ⟨2, by norm_num⟩
    · exact ⟨1, by norm_num⟩
    · exact ⟨0, by norm_num⟩

theorem touchTerm_half (t : Bool) : ∃ k : ℤ, touchTerm t = (k : ℚ)/2 := by
  cases t
  · exact ⟨0, by norm_num [touchTerm]⟩
  · exact ⟨2, by norm_num [touchTerm]⟩

theorem rsiAssistTerm_half (r : Option ℚ) : ∃ k : ℤ, rsiAssistTerm r = (k : ℚ)/2 := by
  rcases r with _ | r
  · exact ⟨0, by norm_num [rsiAssistTerm]⟩
  · simp only [rsiAssistTerm]
    split_ifs
    · exact ⟨1, by norm_num⟩
    · exact ⟨0, by norm_num⟩

theorem bitgakRawScore_half (bs : BitgakSnapshot) :
    ∃ k : ℤ, bitgakRawScore bs = (k : ℚ)/2 := by
  obtain ⟨a, ha⟩ := csiTerm_half bs.csi
  obtain ⟨b, hb⟩ := hvnTerm_half bs.hvnProximity
  obtain ⟨t, ht⟩ := touchTerm_half bs.touched
  obtain ⟨r, hr⟩ := rsiAssistTerm_half bs.rsi
  exact ⟨a + b + t + r, by rw [bitgakRawScore, ha, hb, ht, hr]; push_cast; ring⟩

/-- The returned sub-score is the raw sum: every increment is a multiple of
one half, so the final `round(score, 1)` is the identity. -/
theorem bitgak_score_eq_raw (bs : BitgakSnapshot) :
    (analyze_bitgak_signal bs).score = bitgakRawScore bs := by
  obtain ⟨k, hk⟩ := bitgakRawScore_half bs
  show round1 (bitgakRawScore bs) = bitgakRawScore bs
  rw [hk, round1_half]

theorem csiTerm_eq_spec (c : ℚ) :
    csiTerm (some c) =
      (if -5 ≤ c ∧ c ≤ 2 then (1:ℚ) else 0) + (if c < -10 then 1/2 else 0) +
        (if 10 < c then -(1/2) else 0) := by
  unfold csiTerm
  by_cases hA : -5 ≤ c ∧ c ≤ 2
  · have hB : ¬(c < -10) := by intro h; linarith [hA.1]
    have hC : ¬(10 < c) := by intro h; linarith [hA.2]
    simp [hA, hB, hC]
  · by_cases hB : c < -10
    · have hC : ¬(10 < c) := by intro h; linarith
      simp [hA, hB, hC]
    · by_cases hC : 10 < c
      · simp [hA, hB, hC]
      · simp [hA, hB, hC]

theorem bitgakRawScore_eq_spec (bs : BitgakSnapshot) :
    bitgakRawScore bs = specCrowdSubScore bs := by
  unfold bitgakRawScore specCrowdSubScore
  rcases hc : bs.csi with _ | c
  · rfl
  · rw [csiTerm_eq_spec]

theorem bitgakGradeOf_strong_iff (s : ℚ) :
    bitgakGradeOf s = .STRONG_BITGAK ↔ 5/2 ≤ s := by
  unfold bitgakGradeOf
  split_ifs with h1 h2 <;> simp [h1]

theorem bitgakGradeOf_moderate_iff (s : ℚ) :
    bitgakGradeOf s = .BITGAK ↔ 3/2 ≤ s ∧ s < 5/2 := by
  unfold bitgakGradeOf
  split_ifs with h1 h2
  · constructor
    · intro h; cases h
    · intro h; exfalso; linarith [h.2]
  · constructor
    · intro _; exact ⟨h2, by push_neg at h1; exact h1⟩
    · intro _; rfl
  · constructor
    · intro h; cases h
    · intro h; exact absurd h.1 h2

theorem bitgakGradeOf_none_iff (s : ℚ) :
    bitgakGradeOf s = .NONE ↔ s < 3/2 := by
  unfold bitgakGradeOf
  split_ifs with h1 h2
  · constructor
    · intro h; cases h
    · intro h; exfalso; linarith
  · constructor
    · intro h; cases h
    · intro h; exact absurd h2 (by push_neg; exact h)
  · constructor
    · intro _; push_neg at h2; exact h2
    · intro _; rfl

/-- C5: the crowd module's returned sub-score equals the claim's sum of
independent contributions, the grade thresholds are exactly 2.5 (STRONG)
and 1.5 (moderate), and the boundary cases 2.5 / 2.4 land on STRONG and
moderate respectively. -/
theorem crowd_subscore_and_grade (bs : BitgakSnapshot) :
    (analyze_bitgak_signal bs).score = specCrowdSubScore bs ∧
    ((analyze_bitgak_signal bs).grade = .STRONG_BITGAK ↔
      5/2 ≤ specCrowdSubScore bs) ∧
    ((analyze_bitgak_signal bs).grade = .BITGAK ↔
      3/2 ≤ specCrowdSubScore bs ∧ specCrowdSubScore bs < 5/2) ∧
    ((analyze_bitgak_signal bs).grade = .NONE ↔ specCrowdSubScore bs < 3/2) ∧
    bitgakGradeOf (5/2) = .STRONG_BITGAK ∧ bitgakGradeOf (12/5) = .BITGAK := by
  have hraw : bitgakRawScore bs = specCrowdSubScore bs := bitgakRawScore_eq_spec bs
  have hgrade : (analyze_bitgak_signal bs).grade = bitgakGradeOf (specCrowdSubScore bs) := by
    show bitgakGradeOf (bitgakRawScore bs) = _
    rw [hraw]
  refine ⟨?_, ?_, ?_, ?_,
    by unfold bitgakGradeOf; rw [if_pos (by norm_num)],
    by unfold bitgakGradeOf; rw [if_neg (by norm_num), if_pos (by norm_num)]⟩
  · rw [bitgak_score_eq_raw, hraw]
  · rw [hgrade]; exact bitgakGradeOf_strong_iff _
  · rw [hgrade]; exact bitgakGradeOf_moderate_iff _
  · rw [hgrade]; exact bitgakGradeOf_none_iff _

/-- C4: the integration step applied to the crowd module's own sub-score
(src/bitgak.py) behaves exactly as claimed: optimal zone + near node gives
the strong flag and +3; otherwise the acceptable zone with proximity ≤ 5 and
sub-score ≥ 1 gives the signal flag and sub×1.2; otherwise sub-score ≥ 1
gives the weak flag and sub×0.5. -/
theorem crowd_integration_step (bs : BitgakSnapshot) (csi prox : ℚ) :
    (((-5 ≤ csi ∧ csi ≤ 2) ∧ prox ≤ 3) →
      bitgakIntegration csi prox ((analyze_bitgak_signal bs).score) =
        (3, CrowdFlag.strongBitgak)) ∧
    (¬((-5 ≤ csi ∧ csi ≤ 2) ∧ prox ≤ 3) →
      ((-10 ≤ csi ∧ csi ≤ 5) ∧ prox ≤ 5 ∧ 1 ≤ (analyze_bitgak_signal bs).score) →
      bitgakIntegration csi prox ((analyze_bitgak_signal bs).score) =
        ((analyze_bitgak_signal bs).score * (6/5), CrowdFlag.bitgakSignal)) ∧
    (¬((-5 ≤ csi ∧ csi ≤ 2) ∧ prox ≤ 3) →
      ¬((-10 ≤ csi ∧ csi ≤ 5) ∧ prox ≤ 5 ∧ 1 ≤ (analyze_bitgak_signal bs).score) →
      1 ≤ (analyze_bitgak_signal bs).score →
      bitgakIntegration csi prox ((analyze_bitgak_signal bs).score) =
        ((analyze_bitgak_signal bs).score * (1/2), CrowdFlag.bitgakWeak)) := by
  refine ⟨?_, ?_, ?_⟩
  · intro h1
    unfold bitgakIntegration
    rw [if_pos h1]
  · intro h1 h2
    unfold bitgakIntegration
    rw [if_neg h1, if_pos h2]
  · intro h1 h2 h3
    unfold bitgakIntegration
    rw [if_neg h1, if_neg h2, if_pos h3]

/-- Witness for C4: at stress 0 and proximity 1 the strong branch fires with
score delta +3. -/
theorem crowd_integration_step_witness :
    (((-5:ℚ) ≤ 0 ∧ (0:ℚ) ≤ 2) ∧ (1:ℚ) ≤ 3) ∧
    bitgakIntegration 0 1 ((analyze_bitgak_signal bsStrong).score) =
      (3, CrowdFlag.strongBitgak) :=
  ⟨⟨⟨by norm_num, by norm_num⟩, by norm_num⟩,
    (crowd_integration_step bsStrong 0 1).1 ⟨⟨by norm_num, by norm_num⟩, by norm_num⟩⟩

theorem foldl_append_eq_map {α β : Type} (f : α → β) :
    ∀ (l : List α) (acc : List β),
      l.foldl (fun a h => a ++ [f h]) acc = acc ++ l.map f := by
  intro l
  induction l with
  | nil => intro acc; simp
  | cons h t ih => intro acc; simp [ih]

theorem analyze_portfolio_run_eq_map (snapOf : List Bar → Snapshot)
    (holdings : List Holding) :
    analyze_portfolio_run snapOf holdings =
      holdings.map (fun h => analyze_signals_run snapOf h.df h.symbol) := by
  unfold analyze_portfolio_run
  rw [foldl_append_eq_map]
  simp

/-- C6: a missing or shorter-than-60-bar input yields the explicit
insufficient-data outcome (a constructor that carries no indicator fields,
no score and no recommendation), and the batch result is exactly the
per-holding map — every other holding is still analyzed, in order, and the
batch length is preserved. -/
theorem insufficient_data_and_batch_continues (snapOf : List Bar → Snapshot)
    (holdings : List Holding) (df : Option (List Bar)) (symbol : String)
    (hshort : df = none ∨ ∃ bars, df = some bars ∧ bars.length < 60) :
    analyze_signals_run snapOf df symbol = .insufficient symbol ∧
    analyze_portfolio_run snapOf holdings =
      holdings.map (fun h => analyze_signals_run snapOf h.df h.symbol) ∧
    (analyze_portfolio_run snapOf holdings).length = holdings.length := by
  refine ⟨?_, analyze_portfolio_run_eq_map snapOf holdings, ?_⟩
  · rcases hshort with hnone | ⟨bars, hbars, hlen⟩
    · rw [hnone]; rfl
    · rw [hbars]
      simp only [analyze_signals_run]
      rw [if_pos hlen]
  · rw [analyze_portfolio_run_eq_map]
    simp

/-- Witness for C6: a one-bar history is refused, and a two-holding batch
(one insufficient, one with 60 bars) maps each holding independently. -/
theorem insufficient_data_and_batch_continues_witness :
    ((none : Option (List Bar)) = none ∨
      ∃ bars, (none : Option (List Bar)) = some bars ∧ bars.length < 60) ∧
    (analyze_signals_run (fun _ => snapQuiet) none "SOXL" =
      AnalysisOutcome.insufficient "SOXL" ∧
     analyze_portfolio_run (fun _ => snapQuiet)
        ([⟨"SOXL", none⟩,
          ⟨"QQQ", some (List.replicate 60 ⟨1, 2, 1, 2, 3⟩)⟩] : List Holding) =
      List.map
        (fun (h : Holding) => analyze_signals_run (fun _ => snapQuiet) h.df h.symbol)
        ([⟨"SOXL", none⟩,
          ⟨"QQQ", some (List.replicate 60 ⟨1, 2, 1, 2, 3⟩)⟩] : List Holding) ∧
     (analyze_portfolio_run (fun _ => snapQuiet)
        ([⟨"SOXL", none⟩,
          ⟨"QQQ", some (List.replicate 60 ⟨1, 2, 1, 2, 3⟩)⟩] : List Holding)).length = 2) :=
  ⟨Or.inl rfl,
    insufficient_data_and_batch_continues (fun _ => snapQuiet)
      ([⟨"SOXL", none⟩, ⟨"QQQ", some (List.replicate 60 ⟨1, 2, 1, 2, 3⟩)⟩] : List Holding)
      none "SOXL" (Or.inl rfl)⟩

theorem warningOverlay_preserves (wo : Option CrowdWarning) (st : TradeStrategy)
    (h : ∀ w, wo = some w → warningReduces w = false) :
    (warningOverlay wo st).action = st.action ∧
    (warningOverlay wo st).confidence = st.confidence ∧
    (warningOverlay wo st).positionSize = st.positionSize ∧
    (warningOverlay wo st).entrySteps = st.entrySteps ∧
    (warningOverlay wo st).stopLoss = st.stopLoss ∧
    (warningOverlay wo st).takeProfit = st.takeProfit := by
  rcases hw : wo with _ | w
  · subst hw
    exact ⟨rfl, rfl, rfl, rfl, rfl, rfl⟩
  · have hr : warningReduces w = false := h w hw
    subst hw
    simp only [warningOverlay]
    by_cases hb : st.action = Action.BUY
    · rw [if_pos hb, hr]
      simp
    · rw [if_neg hb]
      exact ⟨rfl, rfl, rfl, rfl, rfl, rfl⟩

theorem macroOverlay_neutral (mkt : MarketIn) (st : TradeStrategy)
    (hfear : mkt.sentiment ≠ .EXTREME_FEAR)
    (hgreed : mkt.sentiment ≠ .EXTREME_GREED) :
    macroOverlay mkt st = st := by
  unfold macroOverlay
  rw [if_neg (fun h => hfear h.1), if_neg (fun h => hgreed h.1)]

theorem buyBranch_action_stopLoss (a : AnalysisIn) :
    (buyBranch a).action = Action.BUY ∧
    (buyBranch a).stopLoss = some
      ⟨round2 ((a.support.getD (a.currentPrice * (9/10))) * (97/100)),
       round1 (((a.support.getD (a.currentPrice * (9/10))) * (97/100) /
         a.currentPrice - 1) * 100)⟩ := by
  unfold buyBranch
  by_cases h5 : 5 ≤ a.score <;>
    by_cases hbg : a.bitgakGrade = .STRONG_BITGAK ∨ a.bitgakGrade = .BITGAK <;>
      rcases ht : a.targetPrice with _ | t <;>
        simp [h5, hbg, ht]

theorem buyBranch_high_tier (a : AnalysisIn) (h5 : 5 ≤ a.score) :
    (buyBranch a).confidence = Confidence.HIGH ∧
    (buyBranch a).positionSize = PositionSize.pct 30 ∧
    (buyBranch a).entrySteps.take 3 =
      [.tranche a.currentPrice 50, .tranche (a.currentPrice * (97/100)) 30,
       .tranche (a.currentPrice * (95/100)) 20] := by
  unfold buyBranch
  by_cases hbg : a.bitgakGrade = .STRONG_BITGAK ∨ a.bitgakGrade = .BITGAK <;>
    rcases ht : a.targetPrice with _ | t <;>
      simp [h5, hbg, ht]

theorem buyBranch_medium_tier (a : AnalysisIn) (h5 : ¬ 5 ≤ a.score) :
    (buyBranch a).confidence = Confidence.MEDIUM ∧
    (buyBranch a).positionSize = PositionSize.pct 20 ∧
    (buyBranch a).entrySteps.take 3 =
      [.tranche a.currentPrice 40, .tranche (a.currentPrice * (95/100)) 30,
       .tranche (a.currentPrice * (9/10)) 30] := by
  unfold buyBranch
  by_cases hbg : a.bitgakGrade = .STRONG_BITGAK ∨ a.bitgakGrade = .BITGAK <;>
    rcases ht : a.targetPrice with _ | t <;>
      simp [h5, hbg, ht]

theorem buyBranch_takeProfit_target (a : AnalysisIn) (t : ℚ)
    (ht : a.targetPrice = some t) (ht0 : t ≠ 0)
    (hup : 10 < (t / a.currentPrice - 1) * 100) :
    (buyBranch a).takeProfit =
      [⟨round2 (a.currentPrice * (11/10)), 10, 30⟩,
       ⟨round2 (a.currentPrice * (12/10)), 20, 30⟩,
       ⟨round2 t, round1 ((t / a.currentPrice - 1) * 100), 40⟩] := by
  unfold buyBranch
  by_cases h5 : 5 ≤ a.score <;>
    by_cases hbg : a.bitgakGrade = .STRONG_BITGAK ∨ a.bitgakGrade = .BITGAK <;>
      simp [h5, hbg, ht, ht0, hup]

theorem buyBranch_takeProfit_resistance (a : AnalysisIn)
    (hno : ∀ t, a.targetPrice = some t → t = 0 ∨ (t / a.currentPrice - 1) * 100 ≤ 10) :
    (buyBranch a).takeProfit =
      [⟨round2 (a.resistance.getD (a.currentPrice * (11/10))),
        round1 ((a.resistance.getD (a.currentPrice * (11/10)) /
          a.currentPrice - 1) * 100), 50⟩,
       ⟨round2 ((a.resistance.getD (a.currentPrice * (11/10))) * (21/20)),
        round1 (((a.resistance.getD (a.currentPrice * (11/10))) * (21/20) /
          a.currentPrice - 1) * 100), 50⟩] := by
  unfold buyBranch
  by_cases h5 : 5 ≤ a.score <;>
    by_cases hbg : a.bitgakGrade = .STRONG_BITGAK ∨ a.bitgakGrade = .BITGAK <;>
      rcases ht : a.targetPrice with _ | t
  all_goals simp [h5, hbg, ht]
  all_goals
    intro h0
    rcases hno t ht with h | h
    · exact absurd h h0
    · exact h

/-- C7 (amended): for a BUY/STRONG_BUY recommendation with non-zero price,
when neither macro overlay fires (sentiment is not EXTREME_FEAR and not
EXTREME_GREED) and no chasing / far-from-value crowd warning is attached,
the strategy is as the claim states: action BUY; score ≥ 5 gives HIGH /
30 % / a 50-30-20 split at 0 %, −3 %, −5 %, otherwise MEDIUM / 20 % / a
40-30-30 split at 0 %, −5 %, −10 %; stop-loss 0.97 × support (price and
percent, rounded as the source rounds); take-profit is the three-tier
+10 %/+20 %/target ladder (30/30/40) exactly when an analyst target exists
with upside > 10 %, otherwise the resistance / resistance×1.05 ladder
(50/50). -/
theorem buy_strategy_structure (a : AnalysisIn) (mkt : MarketIn)
    (hrec : a.recommendation = .STRONG_BUY ∨ a.recommendation = .BUY)
    (hp : a.currentPrice ≠ 0)
    (hfear : mkt.sentiment ≠ .EXTREME_FEAR)
    (hgreed : mkt.sentiment ≠ .EXTREME_GREED)
    (hwarn : ∀ w, a.bitgakWarning = some w → warningReduces w = false) :
    (generate_trading_strategy a mkt).action = Action.BUY ∧
    (5 ≤ a.score →
      (generate_trading_strategy a mkt).confidence = Confidence.HIGH ∧
      (generate_trading_strategy a mkt).positionSize = PositionSize.pct 30 ∧
      (generate_trading_strategy a mkt).entrySteps.take 3 =
        [.tranche a.currentPrice 50, .tranche (a.currentPrice * (97/100)) 30,
         .tranche (a.currentPrice * (95/100)) 20]) ∧
    (¬ 5 ≤ a.score →
      (generate_trading_strategy a mkt).confidence = Confidence.MEDIUM ∧
      (generate_trading_strategy a mkt).positionSize = PositionSize.pct 20 ∧
      (generate_trading_strategy a mkt).entrySteps.take 3 =
        [.tranche a.currentPrice 40, .tranche (a.currentPrice * (95/100)) 30,
         .tranche (a.currentPrice * (9/10)) 30]) ∧
    (generate_trading_strategy a mkt).stopLoss = some
      ⟨round2 ((a.support.getD (a.currentPrice * (9/10))) * (97/100)),
       round1 (((a.support.getD (a.currentPrice * (9/10))) * (97/100) /
         a.currentPrice - 1) * 100)⟩ ∧
    (∀ t, a.targetPrice = some t → t ≠ 0 → 10 < (t / a.currentPrice - 1) * 100 →
      (generate_trading_strategy a mkt).takeProfit =
        [⟨round2 (a.currentPrice * (11/10)), 10, 30⟩,
         ⟨round2 (a.currentPrice * (12/10)), 20, 30⟩,
         ⟨round2 t, round1 ((t / a.currentPrice - 1) * 100), 40⟩]) ∧
    ((∀ t, a.targetPrice = some t → t = 0 ∨ (t / a.currentPrice - 1) * 100 ≤ 10) →
      (generate_trading_strategy a mkt).takeProfit =
        [⟨round2 (a.resistance.getD (a.currentPrice * (11/10))),
          round1 ((a.resistance.getD (a.currentPrice * (11/10)) /
            a.currentPrice - 1) * 100), 50⟩,
         ⟨round2 ((a.resistance.getD (a.currentPrice * (11/10))) * (21/20)),
          round1 (((a.resistance.getD (a.currentPrice * (11/10))) * (21/20) /
            a.currentPrice - 1) * 100), 50⟩]) := by
  have hgen : generate_trading_strategy a mkt =
      warningOverlay a.bitgakWarning (buyBranch a) := by
    unfold generate_trading_strategy mainBranch
    rw [if_neg hp, if_pos hrec, macroOverlay_neutral mkt _ hfear hgreed]
  obtain ⟨ea, ec, eps, een, esl, etp⟩ :=
    warningOverlay_preserves a.bitgakWarning (buyBranch a) hwarn
  rw [hgen]
  refine ⟨?_, ?_, ?_, ?_, ?_, ?_⟩
  · rw [ea, (buyBranch_action_stopLoss a).1]
  · intro h5
    obtain ⟨c, ps, en⟩ := buyBranch_high_tier a h5
    exact ⟨by rw [ec, c], by rw [eps, ps], by rw [een, en]⟩
  · intro h5
    obtain ⟨c, ps, en⟩ := buyBranch_medium_tier a h5
    exact ⟨by rw [ec, c], by rw [eps, ps], by rw [een, en]⟩
  · rw [esl, (buyBranch_action_stopLoss a).2]
  · intro t ht ht0 hup
    rw [etp, buyBranch_takeProfit_target a t ht ht0 hup]
  · intro hno
    rw [etp, buyBranch_takeProfit_resistance a hno]

/-- Counterexample to C7 as stated: a STRONG_BUY analysis with score 5 and
non-zero price, under EXTREME_GREED macro sentiment, yields confidence LOW
with position size 10 % — not the claimed HIGH / 30 %.  The macro overlay of
src/strategy.py lines 148-151 rewrites both fields after the BUY branch. -/
theorem buy_strategy_counterexample :
    aGreedy.recommendation = Recommendation.STRONG_BUY ∧
    aGreedy.currentPrice ≠ 0 ∧ 5 ≤ aGreedy.score ∧
    (generate_trading_strategy aGreedy mGreedy).confidence = Confidence.LOW ∧
    (generate_trading_strategy aGreedy mGreedy).positionSize = PositionSize.pct 10 ∧
    ¬((generate_trading_strategy aGreedy mGreedy).confidence = Confidence.HIGH ∧
      (generate_trading_strategy aGreedy mGreedy).positionSize = PositionSize.pct 30) := by
  refine ⟨rfl, by norm_num [aGreedy], by norm_num [aGreedy], ?_, ?_, ?_⟩ <;>
    decide

/-- Witness for the amended C7 at a neutral market with no crowd warning. -/
theorem buy_strategy_structure_witness :
    (aGreedy.recommendation = Recommendation.STRONG_BUY ∨
      aGreedy.recommendation = Recommendation.BUY) ∧
    aGreedy.currentPrice ≠ 0 ∧
    mNeutral.sentiment ≠ Sentiment.EXTREME_FEAR ∧
    mNeutral.sentiment ≠ Sentiment.EXTREME_GREED ∧
    (generate_trading_strategy aGreedy mNeutral).action = Action.BUY ∧
    ((5:ℚ) ≤ aGreedy.score →
      (generate_trading_strategy aGreedy mNeutral).confidence = Confidence.HIGH ∧
      (generate_trading_strategy aGreedy mNeutral).positionSize = PositionSize.pct 30 ∧
      (generate_trading_strategy aGreedy mNeutral).entrySteps.take 3 =
        [.tranche aGreedy.currentPrice 50,
         .tranche (aGreedy.currentPrice * (97/100)) 30,
         .tranche (aGreedy.currentPrice * (95/100)) 20]) :=
  ⟨Or.inl rfl, by norm_num [aGreedy], by decide, by decide,
    (buy_strategy_structure aGreedy mNeutral (Or.inl rfl) (by norm_num [aGreedy])
      (by decide) (by decide) (fun w hw => by cases hw)).1,
    fun h5 =>
      (buy_strategy_structure aGreedy mNeutral (Or.inl rfl) (by norm_num [aGreedy])
        (by decide) (by decide) (fun w hw => by cases hw)).2.1 h5⟩

theorem addCol_bars (df : Frame) (c : String) : (addCol df c).bars = df.bars := by
  unfold addCol
  split_ifs <;> rfl

theorem addCols_bars (cs : List String) : ∀ df : Frame, (addCols df cs).bars = df.bars := by
  induction cs with
  | nil => intro df; rfl
  | cons c t ih =>
    intro df
    show (addCols (addCol df c) t).bars = df.bars
    rw [ih (addCol df c), addCol_bars]

theorem addCol_extends (df : Frame) (c : String) :
    ∃ tail, (addCol df c).extraCols = df.extraCols ++ tail := by
  unfold addCol
  split_ifs
  · exact ⟨[], by simp⟩
  · exact ⟨[c], rfl⟩

theorem addCols_extends (cs : List String) :
    ∀ df : Frame, ∃ tail, (addCols df cs).extraCols = df.extraCols ++ tail := by
  induction cs with
  | nil => intro df; exact ⟨[], by simp [addCols]⟩
  | cons c t ih =>
    intro df
    obtain ⟨t1, h1⟩ := addCol_extends df c
    obtain ⟨t2, h2⟩ := ih (addCol df c)
    exact ⟨t1 ++ t2, by
      show (addCols (addCol df c) t).extraCols = _
      rw [h2, h1, List.append_assoc]⟩

/-- Counterexample to C8 as stated: on a fresh 60-bar frame the analysis
adds the MA5 column (among others) to the caller's object, so the input
frame is not left unchanged. -/
theorem analyzer_mutates_frame_counterexample :
    (60:ℕ) ≤ frame60.bars.length ∧
    "MA5" ∉ frame60.extraCols ∧
    "MA5" ∈ (analyze_signals_frame frame60).extraCols ∧
    analyze_signals_frame frame60 ≠ frame60 := by
  refine ⟨by decide, by decide, by decide, ?_⟩
  intro h
  have : "MA5" ∈ (analyze_signals_frame frame60).extraCols := by decide
  rw [h] at this
  exact absurd this (by decide)

/-- C8 (amended): the analysis never modifies the OHLCV rows of the input
series and never removes or reorders existing columns — it only appends
derived indicator columns to the frame in place. -/
theorem analyzer_preserves_bars (df : Frame) (h : 60 ≤ df.bars.length) :
    (analyze_signals_frame df).bars = df.bars ∧
    ∃ added, (analyze_signals_frame df).extraCols = df.extraCols ++ added := by
  unfold analyze_signals_frame
  rw [if_neg (by omega)]
  constructor
  · unfold calculate_atr_frame calculate_volume_frame calculate_bollinger_frame
      calculate_macd_frame calculate_rsi_frame calculate_ichimoku_frame
      calculate_ma_frame
    simp only [addCols_bars]
  · unfold calculate_atr_frame calculate_volume_frame calculate_bollinger_frame
      calculate_macd_frame calculate_rsi_frame calculate_ichimoku_frame
      calculate_ma_frame
    obtain ⟨t1, h1⟩ := addCols_extends ["MA5", "MA20", "MA60"] df
    obtain ⟨t2, h2⟩ := addCols_extends ["Tenkan", "Kijun", "SpanA", "SpanB", "Chikou"] _
    obtain ⟨t3, h3⟩ := addCols_extends ["RSI"] _
    obtain ⟨t4, h4⟩ := addCols_extends ["EMA12", "EMA26", "MACD", "MACD_Signal", "MACD_Hist"] _
    obtain ⟨t5, h5⟩ := addCols_extends ["BB_Middle", "BB_Upper", "BB_Lower", "BB_Width"] _
    obtain ⟨t6, h6⟩ := addCols_extends ["Volume_MA20", "Volume_Ratio"] _
    obtain ⟨t7, h7⟩ := addCols_extends ["ATR", "ATR_pct"] _
    exact ⟨t1 ++ t2 ++ t3 ++ t4 ++ t5 ++ t6 ++ t7, by
      rw [h7, h6, h5, h4, h3, h2, h1]
      simp [List.append_assoc]⟩

/-- Witness for the amended C8 at the fresh 60-bar frame. -/
theorem analyzer_preserves_bars_witness :
    (60:ℕ) ≤ frame60.bars.length ∧
    ((analyze_signals_frame frame60).bars = frame60.bars ∧
      ∃ added, (analyze_signals_frame frame60).extraCols =
        frame60.extraCols ++ added) :=
  ⟨by decide, analyzer_preserves_bars frame60 (by decide)⟩

end TossStock
